import Mathlib

/-! Shallow embedding of the core of the twitch-ui-test-automation repository:
the condition poller `custom_wait` and the overlay dismisser `dismiss_overlays`
(both from `pages/base.py`), the logger factory `get_logger`
(`utils/ui_test_utils.py`) and `select_random_streamer`
(`pages/search_results_page.py`).

Modelling conventions:
* A Python call that may raise is `Except Unit α`; `Except.error ()` plays the
  role of a raised exception.
* The page is an oracle indexed by the poll-iteration counter: at iteration
  `i` the locator resolves to a snapshot `List Bool` of the visibilities of
  its current matches (in DOM order; `count` is the list length,
  `locator.first.is_visible()` is the head, `false` when there is no match),
  and the predicate call returns its `i`-th outcome.
* Time is idealized: checks are instantaneous and `time.sleep p` advances the
  clock by exactly `p` seconds, so iteration `i` of the while-loop begins at
  elapsed time `i * poll_interval`.  The guard
  `time.time() - start_time < max_wait` therefore admits iteration `i` iff
  `i * poll_interval < max_wait`, so the loop performs exactly
  `Nat.ceil (max_wait / poll_interval)` iterations when it never succeeds
  (`lt_numIters_iff` below proves the guard equivalence for positive
  `poll_interval`).
* `time.sleep` is assumed not to raise, which holds for the nonnegative
  intervals this repository uses.
-/

namespace TwitchUI

/-- Outcome of a Python call that may raise an exception. -/
abbrev PyResult (α : Type) := Except Unit α

/-- Visibility of `locator.first` given the snapshot of all current matches:
Playwright returns the first match's visibility, and `false` when the locator
matches nothing. -/
def firstIsVisible (ms : List Bool) : Bool := ms.headD false

/-- The element branch of one iteration of `custom_wait` (base.py lines
231-239): resolve the locator and test it according to `check_type`.
A raised exception is swallowed by the surrounding `try` and counts as "not
yet satisfied" (`false`).  `element = none` models `element=None` (the
`if element:` guard fails). -/
def elemCheck (element : Option (Nat → PyResult (List Bool)))
    (check_type : String) (i : Nat) : Bool :=
  match element with
  | none => false
  | some es =>
    match es i with
    | Except.error _ => false
    | Except.ok ms =>
      if check_type = "visible" then firstIsVisible ms
      else if check_type = "hidden" then !firstIsVisible ms
      else if check_type = "attached" then decide (0 < ms.length)
      else false

/-- One iteration of the body of `custom_wait`'s `try` block: the predicate is
consulted first (`if condition and condition():`); if it raises, the whole
`try` block is abandoned for this iteration (the element check is skipped) and
the exception is swallowed; if it returns `false` the element check runs. -/
def iterCheck (condition : Option (Nat → PyResult Bool))
    (element : Option (Nat → PyResult (List Bool)))
    (check_type : String) (i : Nat) : Bool :=
  match condition with
  | none => elemCheck element check_type i
  | some c =>
    match c i with
    | Except.error _ => false
    | Except.ok b => if b then true else elemCheck element check_type i

/-- Number of iterations the while loop of `custom_wait` executes when no
check ever succeeds: the least `n` with `n * poll_interval ≥ max_wait`. -/
def numIters (max_wait poll_interval : ℚ) : Nat :=
  Nat.ceil (max_wait / poll_interval)

/-- The while loop of `custom_wait`, with the guard compiled to a fuel count
(`numIters`, justified by `lt_numIters_iff`).  The second component of the
result is the iteration index at which the loop returned: on success it equals
the number of `poll_interval` sleeps performed before the successful check (the
check itself returns immediately, before the iteration's sleep), and on timeout
it equals the total number of iterations, each of which ended with a sleep. -/
def waitLoop (condition : Option (Nat → PyResult Bool))
    (element : Option (Nat → PyResult (List Bool)))
    (check_type : String) : Nat → Nat → Bool × Nat
  | 0, i => (false, i)
  | Nat.succ fuel, i =>
    if iterCheck condition element check_type i then (true, i)
    else waitLoop condition element check_type fuel (i + 1)

/-- `BasePage.custom_wait` from base.py lines 201-245.  Parameters appear in
the source order `(element, max_wait, poll_interval, condition, check_type)`;
the source defaults are `element=None`, `max_wait=5`, `poll_interval=0.5`,
`condition=None`, `check_type="visible"`.  The Boolean is the Python return
value; the iteration index is kept so that the return instant can be read off
(see `returnTime`). -/
def custom_wait (element : Option (Nat → PyResult (List Bool)))
    (max_wait poll_interval : ℚ)
    (condition : Option (Nat → PyResult Bool))
    (check_type : String) : Bool × Nat :=
  waitLoop condition element check_type (numIters max_wait poll_interval) 0

/-- Elapsed time at which `custom_wait` returned, in the idealized time model:
`k * poll_interval` where `k` is the returned iteration index. -/
def returnTime (r : Bool × Nat) (poll_interval : ℚ) : ℚ :=
  (r.2 : ℚ) * poll_interval

/-- A predicate that returns `True` on every call. -/
def alwaysTrue : Nat → PyResult Bool := fun _ => Except.ok true

/-- A predicate that raises on every call. -/
def alwaysThrow : Nat → PyResult Bool := fun _ => Except.error ()

/-- A page snapshot on which the watched locator always has two matches: the
first one hidden and the second one visible. -/
def mixedPage : Nat → PyResult (List Bool) := fun _ => Except.ok [false, true]

/-- The fuel count `numIters` agrees with the source's while guard
`time.time() - start_time < max_wait`: iteration `i` runs iff
`i * poll_interval < max_wait`. -/
theorem lt_numIters_iff (w p : ℚ) (hp : 0 < p) (i : Nat) :
    i < numIters w p ↔ (i : ℚ) * p < w := by
  unfold numIters
  rw [Nat.lt_ceil, lt_div_iff₀ hp]

theorem waitLoop_all_false (condition : Option (Nat → PyResult Bool))
    (element : Option (Nat → PyResult (List Bool))) (check_type : String)
    (h : ∀ j, iterCheck condition element check_type j = false) :
    ∀ fuel i, waitLoop condition element check_type fuel i = (false, i + fuel) := by
  intro fuel
  induction fuel with
  | zero => intro i; simp [waitLoop]
  | succ n ih =>
    intro i
    rw [waitLoop, h i, if_neg (by simp), ih (i + 1)]
    congr 1
    omega

/-- C1 counterexample: `custom_wait` itself applies no floor to `max_wait`.
Called with `max_wait = 0` and a predicate that returns `True` on every call,
it performs zero checks and returns `False` (the pair records the result and
the number of iterations executed, here `0`); under the claim the floor 0.2
would have forced at least one check, which would have returned `True`. -/
theorem poller_floor_cex :
    custom_wait none 0 (1/2) (some alwaysTrue) "visible" = (false, 0) := by
  have hn : numIters 0 (1/2) = 0 := by
    unfold numIters
    rw [Nat.ceil_eq_zero]
    norm_num
  unfold custom_wait
  rw [hn]
  rfl

/-- C1 amended: the 0.2-second floor is not applied by `custom_wait`.  For
`max_wait ≤ 0` (and nonnegative `poll_interval`) the Poller performs zero
checks and returns `false` immediately.  The floor is instead applied by
`dismiss_overlays`, which computes `max_wait = max(0.2, wait_time)` (base.py
line 26) before any call to the Poller, so every Poller call it issues (its
poll interval is 0.25) performs at least one check. -/
theorem poller_floor_amended (element : Option (Nat → PyResult (List Bool)))
    (w p : ℚ) (condition : Option (Nat → PyResult Bool)) (check_type : String)
    (hw : w ≤ 0) (hp : 0 ≤ p) :
    custom_wait element w p condition check_type = (false, 0) ∧
    ∀ wt : ℚ, 1 ≤ numIters (max 0.2 wt) 0.25 := by
  constructor
  · have hn : numIters w p = 0 := by
      unfold numIters
      rw [Nat.ceil_eq_zero]
      exact div_nonpos_iff.mpr (Or.inr ⟨hw, hp⟩)
    unfold custom_wait
    rw [hn]
    rfl
  · intro wt
    have hpos : (0 : ℚ) < max 0.2 wt / 0.25 := by
      apply div_pos
      · exact lt_of_lt_of_le (by norm_num) (le_max_left 0.2 wt)
      · norm_num
    have := Nat.ceil_pos.mpr hpos
    unfold numIters
    omega

/-- C1 amended witness: at `max_wait = -3`, `poll_interval = 1/2`. -/
theorem poller_floor_amended_witness :
    custom_wait none (-3) (1/2) none "visible" = (false, 0) ∧
    ∀ wt : ℚ, 1 ≤ numIters (max 0.2 wt) 0.25 :=
  poller_floor_amended none (-3) (1/2) none "visible" (by norm_num) (by norm_num)

/-- C2 counterexample: on a page whose locator has two matches, the first
hidden and the second visible, some match is visible, yet the `visible` check
never succeeds (the code only consults `locator.first.is_visible()`) and the
`hidden` check succeeds immediately even though a match is visible. -/
theorem poller_checktype_cex :
    (custom_wait (some mixedPage) 1 (1/2) none "visible").1 = false ∧
    (custom_wait (some mixedPage) 1 (1/2) none "hidden").1 = true ∧
    [false, true].any id = true := by
  have hn : numIters 1 (1/2) = 2 := by
    unfold numIters
    rw [Nat.ceil_eq_iff (by norm_num)]
    norm_num
  refine ⟨?_, ?_, rfl⟩
  · unfold custom_wait
    rw [hn]
    rfl
  · unfold custom_wait
    rw [hn]
    rfl

/-- C2 amended: in an iteration whose locator snapshot is `ms`, with a locator
and no predicate, the `visible` check succeeds iff the first match exists and
is visible, the `hidden` check succeeds iff there is no match or the first
match is not visible, and the `attached` check succeeds iff the match count is
greater than 0. -/
theorem poller_checktype_amended (es : Nat → PyResult (List Bool)) (i : Nat)
    (ms : List Bool) (h : es i = Except.ok ms) :
    iterCheck none (some es) "visible" i = firstIsVisible ms ∧
    iterCheck none (some es) "hidden" i = !firstIsVisible ms ∧
    iterCheck none (some es) "attached" i = decide (0 < ms.length) := by
  refine ⟨?_, ?_, ?_⟩ <;> simp [iterCheck, elemCheck, h]

/-- C2 amended witness: the snapshot `[false, true]` at iteration 0. -/
theorem poller_checktype_amended_witness :
    iterCheck none (some mixedPage) "visible" 0 = firstIsVisible [false, true] ∧
    iterCheck none (some mixedPage) "hidden" 0 = !firstIsVisible [false, true] ∧
    iterCheck none (some mixedPage) "attached" 0 = decide (0 < [false, true].length) :=
  poller_checktype_amended mixedPage 0 [false, true] rfl

/-- C3: a predicate that raises on every call is swallowed every iteration
(the `except Exception: pass` of base.py line 241); the Poller runs its full
iteration budget and returns `false` at the deadline.  The embedding is a
total function into `Bool × Nat`, so no exception ever reaches the caller. -/
theorem poller_swallows_exceptions (w p : ℚ) (check_type : String)
    (c : Nat → PyResult Bool) (hthrow : ∀ i, c i = Except.error ()) :
    custom_wait none w p (some c) check_type = (false, numIters w p) := by
  unfold custom_wait
  have hfail : ∀ i, iterCheck (some c) none check_type i = false := by
    intro i
    simp [iterCheck, hthrow i]
  simpa using waitLoop_all_false (some c) none check_type hfail (numIters w p) 0

/-- C3 witness: the always-raising predicate with `max_wait = 1`,
`poll_interval = 1/2`. -/
theorem poller_swallows_exceptions_witness :
    custom_wait none 1 (1/2) (some alwaysThrow) "visible" = (false, numIters 1 (1/2)) :=
  poller_swallows_exceptions 1 (1/2) "visible" alwaysThrow (fun _ => rfl)

/-- C4 counterexample: with no predicate and no locator nothing ever succeeds
(the first conjunct shows the iteration check is constantly false), and at
`max_wait = -1`, `poll_interval = 1/2` the Poller returns at elapsed time 0,
which is later than `max_wait + poll_interval = -1/2`. -/
theorem poller_timeout_window_cex :
    iterCheck none none "visible" 0 = false ∧
    custom_wait none (-1) (1/2) none "visible" = (false, 0) ∧
    ¬ returnTime (custom_wait none (-1) (1/2) none "visible") (1/2) ≤ (-1 : ℚ) + 1/2 := by
  have hn : numIters (-1) (1/2) = 0 := by
    unfold numIters
    rw [Nat.ceil_eq_zero]
    norm_num
  have hcw : custom_wait none (-1) (1/2) none "visible" = (false, 0) := by
    unfold custom_wait
    rw [hn]
    rfl
  refine ⟨rfl, hcw, ?_⟩
  rw [hcw]
  unfold returnTime
  norm_num

/-- C4 amended: for `max_wait ≥ 0` and `poll_interval > 0`, if no iteration's
check ever succeeds the Poller returns `false`, at an elapsed time of at least
`max_wait` and at most `max_wait + poll_interval`.  (For negative `max_wait`
it returns at time 0, which can exceed `max_wait + poll_interval`.) -/
theorem poller_timeout_window (element : Option (Nat → PyResult (List Bool)))
    (w p : ℚ) (condition : Option (Nat → PyResult Bool)) (check_type : String)
    (hw : 0 ≤ w) (hp : 0 < p)
    (hfail : ∀ i, iterCheck condition element check_type i = false) :
    custom_wait element w p condition check_type = (false, numIters w p) ∧
    w ≤ returnTime (custom_wait element w p condition check_type) p ∧
    returnTime (custom_wait element w p condition check_type) p ≤ w + p := by
  have h1 : custom_wait element w p condition check_type = (false, numIters w p) := by
    unfold custom_wait
    simpa using waitLoop_all_false condition element check_type hfail (numIters w p) 0
  rw [h1]
  unfold returnTime numIters
  refine ⟨rfl, ?_, ?_⟩
  · exact (div_le_iff₀ hp).mp (Nat.le_ceil (w / p))
  · have h2 : (Nat.ceil (w / p) : ℚ) < w / p + 1 :=
      Nat.ceil_lt_add_one (div_nonneg hw hp.le)
    have h3 := mul_lt_mul_of_pos_right h2 hp
    have h4 : (w / p + 1) * p = w + p := by
      field_simp
    rw [h4] at h3
    exact h3.le

/-- C4 amended witness: `max_wait = 1`, `poll_interval = 1/2`, nothing
supplied, so nothing ever succeeds. -/
theorem poller_timeout_window_witness :
    custom_wait none 1 (1/2) none "visible" = (false, numIters 1 (1/2)) ∧
    (1 : ℚ) ≤ returnTime (custom_wait none 1 (1/2) none "visible") (1/2) ∧
    returnTime (custom_wait none 1 (1/2) none "visible") (1/2) ≤ 1 + 1/2 :=
  poller_timeout_window none 1 (1/2) none "visible" (by norm_num) (by norm_num)
    (fun _ => rfl)

/-- C8: if the supplied predicate returns `True` on its first evaluation (and
the loop is entered at all: `max_wait > 0`, `poll_interval > 0`), the Poller
returns `true` at iteration index 0, i.e. after zero sleeps, at elapsed
time 0. -/
theorem poller_first_check_no_sleep (element : Option (Nat → PyResult (List Bool)))
    (w p : ℚ) (c : Nat → PyResult Bool) (check_type : String)
    (hw : 0 < w) (hp : 0 < p) (h0 : c 0 = Except.ok true) :
    custom_wait element w p (some c) check_type = (true, 0) ∧
    returnTime (custom_wait element w p (some c) check_type) p = 0 := by
  have hpos : 0 < numIters w p := by
    unfold numIters
    exact Nat.ceil_pos.mpr (div_pos hw hp)
  obtain ⟨n, hn⟩ := Nat.exists_eq_succ_of_ne_zero (Nat.pos_iff_ne_zero.mp hpos)
  have h1 : custom_wait element w p (some c) check_type = (true, 0) := by
    unfold custom_wait
    rw [hn, waitLoop, if_pos (by simp [iterCheck, h0])]
  rw [h1]
  exact ⟨rfl, by unfold returnTime; simp⟩

/-- C8 witness: an always-true predicate with `max_wait = 1`,
`poll_interval = 1`. -/
theorem poller_first_check_no_sleep_witness :
    custom_wait none 1 1 (some alwaysTrue) "visible" = (true, 0) ∧
    returnTime (custom_wait none 1 1 (some alwaysTrue) "visible") 1 = 0 :=
  poller_first_check_no_sleep none 1 1 alwaysTrue "visible" (by norm_num)
    (by norm_num) rfl

/-- A button-like element enumerated by the keyword pass of
`dismiss_overlays`: its `is_visible()` outcome and its `inner_text()`
outcome.  A raised `is_visible()` propagates to the pass's outer `try` and
aborts the whole pass; a raised `inner_text()` is caught by the inner `try`
and only skips this button. -/
structure Button where
  visible : PyResult Bool
  innerText : PyResult String

/-- Environment of one `_click_and_wait_locator` call: the re-evaluation of
`locator.count() and locator.is_visible()` at click time, and the
`locator.is_visible()` oracle consulted by the post-click vanish-wait at each
poll iteration. -/
structure ClickEnv where
  recheck : PyResult (Nat × Bool)
  visAfter : Nat → PyResult Bool

/-- Oracle for one `dismiss_overlays` invocation.  `known` and `generic` give,
per selector string, the outcome of evaluating `page.locator(sel).first`:
its `count()` and `is_visible()` (an error models any of those calls
raising).  `buttons` is the outcome of enumerating
`page.locator("button, [role=button]")`.  `escapeKey` is the outcome of
`page.keyboard.press("Escape")`.  `clickEnv` feeds the (at most one)
`_click_and_wait_locator` call. -/
structure PageModel where
  known : String → PyResult (Nat × Bool)
  buttons : PyResult (List Button)
  generic : String → PyResult (Nat × Bool)
  escapeKey : PyResult Unit
  clickEnv : ClickEnv

/-- The fixed known-overlay selector list of `dismiss_overlays` (base.py
lines 54-65). -/
def known_selectors : List String :=
  ["button[aria-label=\"Close\"]",
   "button:has-text(\"Close\")",
   "button:has-text(\"No thanks\")",
   "button:has-text(\"Not now\")",
   "button:has-text(\"Got it\")",
   "button:has-text(\"I Accept\")",
   "button:has-text(\"Accept\")",
   "div[role=\"dialog\"] button",
   "button[aria-label*=\"close\" i]",
   "button[aria-label*=\"dismiss\" i]"]

/-- The keyword list of the dynamic-button pass (base.py line 78). -/
def keywords : List String :=
  ["close", "dismiss", "no", "deny", "reject", "cancel", "got it", "ok", "accept"]

/-- The wildcard attribute selector list of the generic pass (base.py
lines 95-102). -/
def generic_attrs : List String :=
  ["*[aria-label*=\"close\" i]",
   "*[aria-label*=\"accept\" i]",
   "*[aria-label*=\"dismiss\" i]",
   "*[title*=\"close\" i]",
   "*[title*=\"dismiss\" i]",
   "*[alt*=\"close\" i]"]

/-- Whether the first character list starts with the second. -/
def leadsWith : List Char → List Char → Bool
  | _, [] => true
  | [], _ :: _ => false
  | c :: cs, k :: ks => (c == k) && leadsWith cs ks

/-- Whether the second character list occurs contiguously in the first. -/
def occursIn : List Char → List Char → Bool
  | [], ks => ks.isEmpty
  | c :: cs, ks => leadsWith (c :: cs) ks || occursIn cs ks

/-- Python's `k in txt` substring test. -/
def pyIn (k txt : String) : Bool := occursIn txt.data k.data

/-- Python's `s.strip()`: drop leading and trailing whitespace. -/
def pyStrip (cs : List Char) : List Char :=
  ((cs.dropWhile Char.isWhitespace).reverse.dropWhile Char.isWhitespace).reverse

/-- Python's `s.strip().lower()` as applied to a button's inner text. -/
def pyStripLower (s : String) : String :=
  String.mk ((pyStrip s.data).map Char.toLower)

/-- One step of the known-selector / generic-attribute scan: the guarded test
`loc.count() and loc.is_visible()`, with a raised evaluation caught by the
per-selector `try` and treated as a non-match. -/
def selPasses (f : String → PyResult (Nat × Bool)) (s : String) : Bool :=
  match f s with
  | Except.error _ => false
  | Except.ok (c, v) => (c != 0) && v

/-- The selector scan shared by the known-selector pass and the
generic-attribute pass: return the first selector of the list whose first
match exists and is visible (a raised evaluation means `continue`). -/
def findSelector (f : String → PyResult (Nat × Bool)) : List String → Option String
  | [] => none
  | s :: rest => if selPasses f s then some s else findSelector f rest

/-- `_click_and_wait_locator` from base.py lines 29-51: re-check the locator,
click it (native click first, scripted click as fallback — every exception of
either is swallowed, so the click attempt cannot change the control flow),
then poll with `custom_wait` on the predicate `lambda: not locator.is_visible()`
until the element vanishes or `max_wait` elapses.  Returns whether the element
vanished; the whole body is wrapped in a `try` returning `False`, so it never
raises. -/
def click_and_wait_locator (ce : ClickEnv) (max_wait poll_interval : ℚ) : Bool :=
  match ce.recheck with
  | Except.error _ => false
  | Except.ok (c, v) =>
    if (c != 0) && v then
      (custom_wait none max_wait poll_interval
        (some (fun i => (ce.visAfter i).map (fun b => !b))) "visible").1
    else false

/-- The keyword pass of `dismiss_overlays` (base.py lines 76-92): walk the
button-like elements in order; an invisible button is skipped; a raised
`is_visible()` aborts the whole pass (outer `try ... except: pass`); a raised
`inner_text()` skips the button (inner `try ... except: continue`); the first
visible button whose trimmed lower-cased text contains one of `keywords` is
clicked and its text reported.  Both an aborted and an exhausted pass fall
through to the generic pass, so both are `none`. -/
def keywordPass : List Button → Option String
  | [] => none
  | b :: rest =>
    match b.visible with
    | Except.error _ => none
    | Except.ok false => keywordPass rest
    | Except.ok true =>
      match b.innerText with
      | Except.error _ => keywordPass rest
      | Except.ok t =>
        let txt := pyStripLower t
        if keywords.any (fun k => pyIn k txt) then some txt
        else keywordPass rest

/-- The tail of `dismiss_overlays` (base.py lines 94-118): the
generic-attribute pass, then the Escape fallback.  A successful
`keyboard.press("Escape")` is followed by a short `custom_wait` on a constant
true predicate and reports `("Escape", "escape")`; a raised press reports
`(None, None)`. -/
def genericAndEscape (pm : PageModel) (max_wait poll_interval : ℚ) :
    Option String × Option String :=
  match findSelector pm.generic generic_attrs with
  | some sel =>
    let _vanished := click_and_wait_locator pm.clickEnv max_wait poll_interval
    (some sel, some "generic")
  | none =>
    match pm.escapeKey with
    | Except.ok _ =>
      let _settled := custom_wait none 0.1 0.5 (some alwaysTrue) "visible"
      (some "Escape", some "escape")
    | Except.error _ => (none, none)

/-- `BasePage.dismiss_overlays` from base.py lines 14-118.  The clamp
`max_wait = max(0.2, wait_time)` and `poll_interval = 0.25` are the source's
lines 26-27.  The cascade: known-selector pass (first visible match returns
`(sel, "known")` no matter what `_click_and_wait_locator` reports), keyword
pass (`(text, "dynamic")`), generic-attribute pass (`(sel, "generic")`),
Escape fallback (`("Escape", "escape")` or `(None, None)`).  The embedding is
a total function: no exception reaches the caller. -/
def dismiss_overlays (pm : PageModel) (wait_time : ℚ) :
    Option String × Option String :=
  let max_wait := max 0.2 wait_time
  let poll_interval : ℚ := 0.25
  match findSelector pm.known known_selectors with
  | some sel =>
    let _ok := click_and_wait_locator pm.clickEnv max_wait poll_interval
    (some sel, some "known")
  | none =>
    match pm.buttons with
    | Except.error _ => genericAndEscape pm max_wait poll_interval
    | Except.ok bs =>
      match keywordPass bs with
      | some txt =>
        let _vanished := click_and_wait_locator pm.clickEnv max_wait poll_interval
        (some txt, some "dynamic")
      | none => genericAndEscape pm max_wait poll_interval

theorem findSelector_none (f : String → PyResult (Nat × Bool)) (l : List String)
    (h : ∀ s ∈ l, selPasses f s = false) : findSelector f l = none := by
  induction l with
  | nil => rfl
  | cons a rest ih =>
    rw [findSelector, if_neg (by simp [h a (List.mem_cons_self a rest)]),
      ih (fun s hs => h s (List.mem_cons_of_mem a hs))]

theorem findSelector_some (f : String → PyResult (Nat × Bool)) (l : List String)
    (h : ∃ s ∈ l, selPasses f s = true) :
    ∃ s ∈ l, selPasses f s = true ∧ findSelector f l = some s := by
  induction l with
  | nil => simp at h
  | cons a rest ih =>
    by_cases hpa : selPasses f a = true
    · exact ⟨a, List.mem_cons_self a rest, hpa, by rw [findSelector, if_pos hpa]⟩
    · obtain ⟨s, hs, hps⟩ := h
      rcases List.mem_cons.mp hs with hsa | hsr
      · exact absurd (hsa ▸ hps) hpa
      · obtain ⟨s, hs2, hps2, hfind⟩ := ih ⟨s, hsr, hps⟩
        exact ⟨s, List.mem_cons_of_mem a hs2, hps2,
          by rw [findSelector, if_neg hpa, hfind]⟩

/-- Buttons that are not visible are skipped by the keyword pass. -/
theorem keywordPass_append_invisible (pre : List Button)
    (hpre : ∀ b ∈ pre, b.visible = Except.ok false) (rest : List Button) :
    keywordPass (pre ++ rest) = keywordPass rest := by
  induction pre with
  | nil => rfl
  | cons a l ih =>
    rw [List.cons_append, keywordPass, hpre a (List.mem_cons_self a l)]
    exact ih (fun b hb => hpre b (List.mem_cons_of_mem a hb))

/-- C5: whenever some known selector's first match exists and is visible, the
known-selector pass fires: `dismiss_overlays` returns that selector (the first
passing one, in list order) tagged `"known"`.  The theorem quantifies over the
whole page model — in particular over `pm.clickEnv`, i.e. over every possible
outcome of the post-click vanish-wait — so the result is independent of
whether the overlay actually disappeared. -/
theorem dismisser_known_pass (pm : PageModel) (wt : ℚ)
    (h : ∃ s ∈ known_selectors, selPasses pm.known s = true) :
    ∃ s ∈ known_selectors, selPasses pm.known s = true ∧
      dismiss_overlays pm wt = (some s, some "known") := by
  obtain ⟨s, hmem, hpass, hfind⟩ := findSelector_some pm.known known_selectors h
  refine ⟨s, hmem, hpass, ?_⟩
  unfold dismiss_overlays
  rw [hfind]

/-- A page on which every known selector's first match exists and is visible,
no button-like elements exist, no generic attribute matches, the Escape press
would succeed, and the overlay never vanishes after the click (the vanish-wait
re-check sees it visible forever). -/
def pmKnownW : PageModel :=
  ⟨fun _ => Except.ok (1, true), Except.ok [], fun _ => Except.ok (0, false),
   Except.ok (), ⟨Except.ok (1, true), fun _ => Except.ok true⟩⟩

/-- C5 witness: on `pmKnownW` the known-selector pass fires. -/
theorem dismisser_known_pass_witness :
    ∃ s ∈ known_selectors, selPasses pmKnownW.known s = true ∧
      dismiss_overlays pmKnownW 1 = (some s, some "known") :=
  dismisser_known_pass pmKnownW 1
    ⟨"button[aria-label=\"Close\"]", by simp [known_selectors], rfl⟩

/-- C6: on a page where no known selector passes and the button-like elements
are some invisible ones, then one visible button whose `inner_text()` is
`"No thanks"`, then more invisible ones, the keyword pass fires on that button
(its trimmed lower-cased text `"no thanks"` contains the keyword `"no"`) and
`dismiss_overlays` returns `(some "no thanks", some "dynamic")`. -/
theorem dismisser_keyword_no_thanks (pm : PageModel) (wt : ℚ)
    (pre post : List Button) (b : Button)
    (hknown : ∀ s ∈ known_selectors, selPasses pm.known s = false)
    (hbtns : pm.buttons = Except.ok (pre ++ b :: post))
    (hvis : b.visible = Except.ok true)
    (htxt : b.innerText = Except.ok "No thanks")
    (hpre : ∀ b' ∈ pre, b'.visible = Except.ok false)
    (_hpost : ∀ b' ∈ post, b'.visible = Except.ok false) :
    dismiss_overlays pm wt = (some "no thanks", some "dynamic") := by
  have hfind := findSelector_none pm.known known_selectors hknown
  have hkw : keywordPass (pre ++ b :: post) = some "no thanks" := by
    rw [keywordPass_append_invisible pre hpre, keywordPass, hvis, htxt]
    rfl
  simp [dismiss_overlays, hfind, hbtns, hkw]

/-- A page with no known-selector or generic-attribute matches and exactly one
button-like element, visible, with text `"No thanks"`. -/
def pmNoThanksW : PageModel :=
  ⟨fun _ => Except.ok (0, false),
   Except.ok [⟨Except.ok true, Except.ok "No thanks"⟩],
   fun _ => Except.ok (0, false), Except.ok (),
   ⟨Except.ok (1, true), fun _ => Except.ok true⟩⟩

/-- C6 witness: on `pmNoThanksW` the keyword pass fires. -/
theorem dismisser_keyword_no_thanks_witness :
    dismiss_overlays pmNoThanksW 1 = (some "no thanks", some "dynamic") :=
  dismisser_keyword_no_thanks pmNoThanksW 1 [] []
    ⟨Except.ok true, Except.ok "No thanks"⟩ (fun _ _ => rfl) rfl rfl rfl
    (fun _ hb => nomatch hb) (fun _ hb => nomatch hb)

/-- C7: on a page where no known selector passes, no button-like element
exists, and no generic attribute selector passes, `dismiss_overlays` falls to
the Escape fallback: a successful key press yields
`(some "Escape", some "escape")` and a raising key press yields
`(none, none)`.  The embedding is total, so neither case raises. -/
theorem dismisser_escape_fallback (pm : PageModel) (wt : ℚ)
    (hknown : ∀ s ∈ known_selectors, selPasses pm.known s = false)
    (hbtns : pm.buttons = Except.ok [])
    (hgen : ∀ s ∈ generic_attrs, selPasses pm.generic s = false) :
    (pm.escapeKey = Except.ok () →
      dismiss_overlays pm wt = (some "Escape", some "escape")) ∧
    (pm.escapeKey = Except.error () →
      dismiss_overlays pm wt = (none, none)) := by
  have hfind1 := findSelector_none pm.known known_selectors hknown
  have hfind2 := findSelector_none pm.generic generic_attrs hgen
  constructor
  · intro he
    simp [dismiss_overlays, genericAndEscape, keywordPass, hfind1, hbtns, hfind2, he]
  · intro he
    simp [dismiss_overlays, genericAndEscape, keywordPass, hfind1, hbtns, hfind2, he]

/-- A page with nothing to dismiss at all, whose Escape press succeeds. -/
def pmEscapeW : PageModel :=
  ⟨fun _ => Except.ok (0, false), Except.ok [], fun _ => Except.ok (0, false),
   Except.ok (), ⟨Except.error (), fun _ => Except.ok true⟩⟩

/-- C7 witness: on `pmEscapeW` the Escape fallback reports
`("Escape", "escape")`. -/
theorem dismisser_escape_fallback_witness :
    dismiss_overlays pmEscapeW 1 = (some "Escape", some "escape") :=
  (dismisser_escape_fallback pmEscapeW 1 (fun _ _ => rfl) rfl (fun _ _ => rfl)).1 rfl

/-- The two handler kinds `get_logger` attaches (ui_test_utils.py lines
22-29): a `FileHandler` and a `StreamHandler`. -/
inductive Handler where
  | file : Handler
  | stream : Handler
deriving DecidableEq

/-- The observable state of a `logging.Logger`: its level (set to
`logging.INFO = 20` by `get_logger`) and its attached handlers, in order. -/
structure Logger where
  level : Option Nat
  handlers : List Handler
deriving DecidableEq

/-- The process-wide registry of named loggers kept by the `logging` module,
as an association list. -/
abbrev LogRegistry := List (String × Logger)

/-- Lookup of a named logger in the registry. -/
def lookupLogger : LogRegistry → String → Option Logger
  | [], _ => none
  | (n, l) :: rest, name => if n = name then some l else lookupLogger rest name

/-- Store a logger under a name (in-place mutation of the registered logger
object in Python; replacement or append in the association-list model). -/
def updateLogger : LogRegistry → String → Logger → LogRegistry
  | [], name, lg => [(name, lg)]
  | (n, l) :: rest, name, lg =>
    if n = name then (n, lg) :: rest else (n, l) :: updateLogger rest name lg

/-- `logging.getLogger(name)`: return the registered logger for `name`, or
create, register and return a fresh one (no level set, no handlers). -/
def getLoggerRaw (st : LogRegistry) (name : String) : Logger × LogRegistry :=
  match lookupLogger st name with
  | some lg => (lg, st)
  | none => (⟨none, []⟩, updateLogger st name ⟨none, []⟩)

/-- `get_logger` from ui_test_utils.py lines 6-31: fetch the named logger; if
it already has handlers return it unchanged; otherwise set its level to INFO
and attach a file handler then a stream handler.  The filesystem side effects
(creating the `logs` directory and the log file) are outside the model. -/
def get_logger (st : LogRegistry) (name : String) : Logger × LogRegistry :=
  match getLoggerRaw st name with
  | (lg, st1) =>
    if lg.handlers ≠ [] then (lg, st1)
    else
      let lg2 : Logger := ⟨some 20, lg.handlers ++ [Handler.file, Handler.stream]⟩
      (lg2, updateLogger st1 name lg2)

theorem lookupLogger_updateLogger (st : LogRegistry) (name : String) (lg : Logger) :
    lookupLogger (updateLogger st name lg) name = some lg := by
  induction st with
  | nil => simp [updateLogger, lookupLogger]
  | cons p rest ih =>
    by_cases h : p.1 = name
    · simp [updateLogger, h, lookupLogger]
    · simp [updateLogger, h, lookupLogger, ih]

/-- C9: starting from a registry in which `name` is unregistered, the first
`get_logger` call attaches exactly one file handler and one stream handler,
and a second call with the same name returns that same logger, with the
registry unchanged — so however many further calls are made, the logger keeps
exactly one file handler and one stream handler. -/
theorem get_logger_idempotent (st : LogRegistry) (name : String)
    (h : lookupLogger st name = none) :
    (get_logger (get_logger st name).2 name).1 = (get_logger st name).1 ∧
    (get_logger (get_logger st name).2 name).2 = (get_logger st name).2 ∧
    (get_logger st name).1.handlers = [Handler.file, Handler.stream] ∧
    (get_logger st name).1.handlers.count Handler.file = 1 ∧
    (get_logger st name).1.handlers.count Handler.stream = 1 := by
  have h1 : get_logger st name =
      (⟨some 20, [Handler.file, Handler.stream]⟩,
        updateLogger (updateLogger st name ⟨none, []⟩) name
          ⟨some 20, [Handler.file, Handler.stream]⟩) := by
    simp [get_logger, getLoggerRaw, h]
  have h2 : get_logger (get_logger st name).2 name =
      ((⟨some 20, [Handler.file, Handler.stream]⟩ : Logger),
        (get_logger st name).2) := by
    rw [h1]
    simp [get_logger, getLoggerRaw, lookupLogger_updateLogger]
  rw [h1] at h2 ⊢
  rw [h2]
  refine ⟨rfl, rfl, rfl, rfl, rfl⟩

/-- C9 witness: the empty registry and the default name
`"ui_test_logger"`. -/
theorem get_logger_idempotent_witness :
    (get_logger (get_logger [] "ui_test_logger").2 "ui_test_logger").1 =
      (get_logger [] "ui_test_logger").1 ∧
    (get_logger (get_logger [] "ui_test_logger").2 "ui_test_logger").2 =
      (get_logger [] "ui_test_logger").2 ∧
    (get_logger [] "ui_test_logger").1.handlers = [Handler.file, Handler.stream] ∧
    (get_logger [] "ui_test_logger").1.handlers.count Handler.file = 1 ∧
    (get_logger [] "ui_test_logger").1.handlers.count Handler.stream = 1 :=
  get_logger_idempotent [] "ui_test_logger" rfl

/-- The streamer-card selector of `SearchResultsPage`
(search_results_page.py line 7). -/
def streamer_card : String := "img[class=\x27tw-image\x27]"

/-- Python value returned by `select_random_streamer`: the literal `False`
when no card matched, or a `StreamerPage` after clicking exactly one card —
the payload records the index of the single `cards.nth(index).click()`
call. -/
inductive SelectResult where
  | falseResult : SelectResult
  | streamer (clickedIndex : Nat) : SelectResult
deriving DecidableEq

/-- `SearchResultsPage.select_random_streamer` from search_results_page.py
lines 13-24: a bounded `custom_wait` on the card locator (result ignored),
then `count = cards.count()`; if `count >= 1`, pick
`index = random.randint(0, count - 1)` (`randint` is the random oracle; the
Python library draws it uniformly from the inclusive range), click that card
once and return a `StreamerPage`; otherwise return `False`. -/
def select_random_streamer (randint : Nat → Nat → Nat)
    (waitStates : Nat → PyResult (List Bool)) (count : Nat) : SelectResult :=
  let _waited := custom_wait (some waitStates) 10 0.5 none "visible"
  if 1 ≤ count then SelectResult.streamer (randint 0 (count - 1))
  else SelectResult.falseResult

/-- C10: with a `randint` oracle honouring Python's inclusive-range contract,
`select_random_streamer` returns the value `False` exactly when the card
count is zero, and with at least one card it clicks exactly one card, at an
index within `[0, count-1]`, and returns a `StreamerPage`. -/
theorem select_random_streamer_spec (randint : Nat → Nat → Nat)
    (hr : ∀ a b, a ≤ b → a ≤ randint a b ∧ randint a b ≤ b)
    (waitStates : Nat → PyResult (List Bool)) (count : Nat) :
    (count = 0 →
      select_random_streamer randint waitStates count = SelectResult.falseResult) ∧
    (1 ≤ count → ∃ i, i < count ∧
      select_random_streamer randint waitStates count = SelectResult.streamer i) := by
  constructor
  · intro hc
    simp [select_random_streamer, hc]
  · intro hc
    refine ⟨randint 0 (count - 1), ?_, by simp [select_random_streamer, hc]⟩
    have := (hr 0 (count - 1) (Nat.zero_le _)).2
    omega

/-- C10 witness: the oracle that always answers the lower bound, an empty
wait snapshot, and three cards. -/
theorem select_random_streamer_spec_witness :
    (3 = 0 → select_random_streamer (fun a _ => a) (fun _ => Except.ok []) 3 =
      SelectResult.falseResult) ∧
    (1 ≤ 3 → ∃ i, i < 3 ∧
      select_random_streamer (fun a _ => a) (fun _ => Except.ok []) 3 =
        SelectResult.streamer i) :=
  select_random_streamer_spec (fun a _ => a)
    (fun a _ h => ⟨Nat.le_refl a, h⟩) (fun _ => Except.ok []) 3

end TwitchUI
